import Mathlib

/-!
# Pashu-AI: breed identification page and service

A shallow embedding of `src/pages/breed-identification-demo/index.jsx` (the page
component: upload validation, the bounded history of recent predictions, retry,
select, clear) and of `src/services/breedIdentificationService.js` (the client of
the hosted vision model).

The React state of the component is an explicit record; every handler is a function
from the state before the call to the state after it has completed.  The browser
(the `recentPredictions` entry of localStorage, the registry of object URLs, the
calls made to the service) is part of that state.  What the browser and the vendor
decide (the outcome of the remote call, the clock, `JSON.parse`,
`JSON.stringify`, the configured API key) is passed in as a parameter.
-/

namespace PashuAi

/-! ## JavaScript values -/

/-- JavaScript values as they occur in the page: what `JSON.parse` returns, what is
kept in the component state and what is spread into object literals. An object is
its list of own enumerable properties in property order. -/
inductive JSVal where
  | undefined : JSVal
  | null : JSVal
  | bool (b : Bool) : JSVal
  | num (q : ℚ) : JSVal
  | str (s : String) : JSVal
  | arr (xs : List JSVal) : JSVal
  | obj (fields : List (String × JSVal)) : JSVal

/-- A thrown JavaScript error: the two properties the handlers read,
`error?.status` and `error?.message` (`none` when the property is undefined). -/
structure JSError where
  status : Option Int
  message : Option String
deriving DecidableEq, Repr

/-- The browser `File` handed to the upload handler: `size` in bytes and the declared
content type (`none` when the `type` property is missing). -/
structure File where
  name : String
  size : Nat
  type : Option String
deriving DecidableEq, Repr

/-- Property read `o.k` on a list of own properties; `undefined` when absent. -/
def getField : List (String × JSVal) → String → JSVal
  | [], _ => .undefined
  | (k', v) :: rest, k => if k' = k then v else getField rest k

/-- Property write in an object literal: an existing key keeps its place and takes
the new value, a new key is appended. -/
def setField : List (String × JSVal) → String → JSVal → List (String × JSVal)
  | [], k, v => [(k, v)]
  | (k', v') :: rest, k, v =>
    if k' = k then (k, v) :: rest else (k', v') :: setField rest k v

/-- Indexed properties `0, 1, ...` of an array-like list of values, from index `i`. -/
def indexedFrom : Nat → List JSVal → List (String × JSVal)
  | _, [] => []
  | i, x :: xs => (toString i, x) :: indexedFrom (i + 1) xs

/-- Characters of a string as one-character string values (code points stand for
UTF-16 units, exact for text of the Basic Multilingual Plane). -/
def charValues (s : String) : List JSVal :=
  s.toList.map (fun c => JSVal.str (String.singleton c))

/-- Own enumerable properties copied by an object spread `{...v}`: the fields of an
object, the indexed elements of an array or string, nothing for the other values. -/
def ownProps : JSVal → List (String × JSVal)
  | .obj fs => fs
  | .arr xs => indexedFrom 0 xs
  | .str s => indexedFrom 0 (charValues s)
  | _ => []

/-- Optional property access `v?.k` for a non-index key `k`: defined on objects only. -/
def optField : JSVal → String → JSVal
  | .obj fs, k => getField fs k
  | _, _ => .undefined

/-- Optional element access `v?.[0]`. -/
def optFirst : JSVal → JSVal
  | .arr xs => xs.headD .undefined
  | .str s => (charValues s).headD .undefined
  | .obj fs => getField fs "0"
  | _ => .undefined

/-- JavaScript `s.startsWith(p)`. -/
def startsWith (s p : String) : Bool := p.toList.isPrefixOf s.toList

/-- JavaScript `s.includes(sub)` (case-sensitive substring test). -/
def includes (s sub : String) : Bool := decide (sub.toList <:+: s.toList)

/-! ## Environment -/

/-- What the browser and the build configuration provide: the built-ins
`JSON.parse` (it throws or returns a value) and `JSON.stringify`, and the value of
`import.meta.env.VITE_OPENAI_API_KEY` (`none` when undefined). -/
structure Env where
  jsonParse : JSVal → Except JSError JSVal
  jsonStringify : JSVal → String
  apiKey : Option String

/-- Outcome of `await openai.chat.completions.create(...)`: the promise rejects with
an error or resolves with a response value. -/
inductive VendorOutcome where
  | rejected (e : JSError) : VendorOutcome
  | resolved (response : JSVal) : VendorOutcome

/-- The chat-completion request built by the service. -/
structure Request where
  model : String
  systemContent : String
  userText : String
  imageUrl : String
  responseFormat : JSVal

/-- Browser-side resources touched by the page. `storage` is the localStorage entry
`recentPredictions` (`none` when absent); `objectUrls` are the object URLs created
and not yet revoked, each with the file it refers to; `urlCounter` numbers the URLs
handed out; `identifyCalls` and `requests` record the calls made to the service and
the requests it sent to the vendor. -/
structure Browser where
  storage : Option String
  objectUrls : List (String × File)
  urlCounter : Nat
  identifyCalls : List File
  requests : List Request

/-- The error object kept in the `error` state: `{ type, message }`. -/
structure UIError where
  type : String
  message : String
deriving DecidableEq, Repr

/-- State of `BreedIdentificationDemo`: the five `useState` cells and the browser. -/
structure State where
  selectedImage : Option File
  isProcessing : Bool
  result : JSVal
  error : Option UIError
  recentPredictions : JSVal
  browser : Browser

/-- Browser of a fresh page with persisted content `saved`. -/
def Browser.fresh (saved : Option String) : Browser :=
  { storage := saved, objectUrls := [], urlCounter := 0, identifyCalls := [], requests := [] }

/-- Initial values of the `useState` cells, over a given browser. -/
def State.init (b : Browser) : State :=
  { selectedImage := none, isProcessing := false, result := .null, error := none,
    recentPredictions := .arr [], browser := b }

/-- The call `URL.createObjectURL(file)`: a URL not handed out before, registered as live. -/
def createObjectURL (file : File) (b : Browser) : String × Browser :=
  let url := "blob:" ++ toString b.urlCounter
  (url, { b with objectUrls := b.objectUrls ++ [(url, file)], urlCounter := b.urlCounter + 1 })

/-- The call `URL.revokeObjectURL(url)`. -/
def revokeObjectURL (url : String) (b : Browser) : Browser :=
  { b with objectUrls := b.objectUrls.filter (fun p => p.1 ≠ url) }

/-! ## The service: `identifyBreedWithOpenAI` -/

/-- Message of the error thrown for a vendor error with status 401. -/
def msgInvalidKey : String := "OpenAI API key is invalid. Please check your configuration."

/-- Message of the error thrown for a vendor error with status 429. -/
def msgRateLimit : String := "OpenAI API rate limit exceeded. Please try again later."

/-- Message of the error thrown for a vendor error with status 400. -/
def msgInvalidRequest : String :=
  "Invalid request to OpenAI API. The image may be too large or in an unsupported format."

/-- Message of the error thrown when the vendor error message contains `network`. -/
def msgNetwork : String :=
  "Network error. Please check your internet connection and try again."

/-- Default message of the error thrown by the service. -/
def msgIdentifyDefault : String :=
  "Failed to identify breed. Please try again with a clearer image."

/-- The `system` message of the breed-identification request. -/
def breedSystemContent : String :=
  "You are an expert veterinary specialist and livestock breed identification expert. \n" ++
  "          Analyze the uploaded image to identify the cattle or buffalo breed with high accuracy. \n" ++
  "          Consider physical characteristics like body structure, color patterns, facial features, \n" ++
  "          horn shape, ear size, and other distinguishing features.\n" ++
  "\n" ++
  "          Focus on identifying common Indian and international cattle breeds including:\n" ++
  "          - Gir, Sahiwal, Red Sindhi, Tharparkar, Rathi, Hariana, Ongole\n" ++
  "          - Holstein Friesian, Jersey, Brown Swiss, Simmental\n" ++
  "          - Murrah Buffalo, Nili-Ravi Buffalo, Surti Buffalo\n" ++
  "\n" ++
  "          Provide detailed analysis with confidence levels and breed characteristics."

/-- The text part of the `user` message of the breed-identification request. -/
def breedUserText : String :=
  "Please identify the cattle or buffalo breed in this image and provide detailed information about it."

/-- Schema entry `{ type: "string", description: d }`. -/
def stringProp (d : String) : JSVal :=
  .obj [("type", .str "string"), ("description", .str d)]

/-- The `response_format` of the breed-identification request. -/
def breedResponseFormat : JSVal :=
  .obj [
    ("type", .str "json_schema"),
    ("json_schema", .obj [
      ("name", .str "breed_identification_response"),
      ("schema", .obj [
        ("type", .str "object"),
        ("properties", .obj [
          ("breedName", stringProp "The identified breed name"),
          ("confidence", .obj [
            ("type", .str "number"), ("minimum", .num 0), ("maximum", .num 1),
            ("description", .str "Confidence level between 0 and 1")]),
          ("breedInfo", .obj [
            ("type", .str "object"),
            ("properties", .obj [
              ("origin", stringProp "Geographic origin of the breed"),
              ("type", stringProp "Type classification (e.g., Dairy Cattle, Water Buffalo)"),
              ("characteristics", stringProp "Physical and behavioral characteristics"),
              ("primaryUse", stringProp "Primary use of the breed"),
              ("averageWeight", stringProp "Average weight range"),
              ("milkYield", stringProp "Average milk yield if applicable")]),
            ("required", .arr [.str "origin", .str "type", .str "characteristics",
              .str "primaryUse"]),
            ("additionalProperties", .bool false)]),
          ("analysisNotes",
            stringProp "Additional analysis notes and reasoning for identification"),
          ("alternativePossibilities", .obj [
            ("type", .str "array"),
            ("items", .obj [
              ("type", .str "object"),
              ("properties", .obj [
                ("breedName", .obj [("type", .str "string")]),
                ("confidence", .obj [
                  ("type", .str "number"), ("minimum", .num 0), ("maximum", .num 1)])]),
              ("required", .arr [.str "breedName", .str "confidence"])]),
            ("description",
              .str "Other possible breed identifications with lower confidence")])]),
        ("required", .arr [.str "breedName", .str "confidence", .str "breedInfo",
          .str "analysisNotes"]),
        ("additionalProperties", .bool false)])])]

/-- The request `identifyBreedWithOpenAI` sends for the image reference `imageUrl`. -/
def breedRequest (imageUrl : String) : Request :=
  { model := "gpt-4o", systemContent := breedSystemContent, userText := breedUserText,
    imageUrl := imageUrl, responseFormat := breedResponseFormat }

/-- The value of `response?.choices?.[0]?.message?.content`. -/
def messageContent (response : JSVal) : JSVal :=
  optField (optField (optFirst (optField response "choices")) "message") "content"

/-- The `catch` block of `identifyBreedWithOpenAI`: the error it throws for the
caught error `error`. The tests are tried in order; `new Error(m)` has no status. -/
def identifyCatch (error : JSError) : JSError :=
  if error.status = some 401 then
    { status := none, message := some msgInvalidKey }
  else if error.status = some 429 then
    { status := none, message := some msgRateLimit }
  else if error.status = some 400 then
    { status := none, message := some msgInvalidRequest }
  else if (match error.message with
      | some m => includes m "network"
      | none => false) then
    { status := none, message := some msgNetwork }
  else
    { status := none,
      message := some (match error.message with
        | some m => if m = "" then msgIdentifyDefault else m
        | none => msgIdentifyDefault) }

/-- The service function `identifyBreedWithOpenAI(imageFile)`. `vendor` is the
outcome of the awaited remote call, `now1` and `now2` are the two readings of
`Date.now()`. Returns the resolved value or the thrown error, and the browser after
the call. -/
def identifyBreedWithOpenAI (env : Env) (vendor : VendorOutcome) (now1 now2 : Nat)
    (imageFile : File) (b : Browser) : Except JSError JSVal × Browser :=
  let b0 := { b with identifyCalls := b.identifyCalls ++ [imageFile] }
  let created := createObjectURL imageFile b0
  let imageUrl := created.1
  let b1 := { created.2 with requests := created.2.requests ++ [breedRequest imageUrl] }
  match vendor with
  | .rejected e => (.error (identifyCatch e), b1)
  | .resolved response =>
    match env.jsonParse (messageContent response) with
    | .error e => (.error (identifyCatch e), b1)
    | .ok result =>
      let b2 := revokeObjectURL imageUrl b1
      (.ok (.obj (setField (setField (ownProps result) "timestamp" (.num (now1 : ℚ)))
        "id" (.str (toString now2)))), b2)

/-! ## The service: `analyzeImageWithGPT4o` -/

/-- JavaScript truthiness of a value. -/
def truthy : JSVal → Bool
  | .undefined => false
  | .null => false
  | .bool b => b
  | .num q => decide (q ≠ 0)
  | .str s => decide (s ≠ "")
  | .arr _ => true
  | .obj _ => true

/-- The `image` argument of `analyzeImageWithGPT4o`: a plain value (a string, an
object with or without a `url` field, `null`, ...) or an instance of `File`. -/
inductive ImageArg where
  | value (v : JSVal) : ImageArg
  | file (f : File) : ImageArg

/-- The chat-completion request built by `analyzeImageWithGPT4o`; the image reference
is whatever value the resolution of `image` produced. -/
structure AnalysisRequest where
  model : String
  systemContent : String
  userText : String
  imageUrl : JSVal
  maxTokens : Nat

/-- The system prompt for the analysis type `breed`. -/
def promptBreed : String :=
  "You are an expert livestock breed identification specialist. Analyze this image to identify cattle or buffalo breeds with detailed characteristics and confidence levels."

/-- The system prompt for the analysis type `health`. -/
def promptHealth : String :=
  "You are a veterinary expert. Analyze this livestock image for visible health indicators, body condition, and any signs of wellness or concerns."

/-- The system prompt for the analysis type `condition`. -/
def promptCondition : String :=
  "You are a livestock condition assessment expert. Evaluate the animal\x27s body condition score, nutritional status, and overall physical appearance."

/-- The value of `systemPrompts?.[analysisType] || systemPrompts?.breed`: the prompt
under one of the three own keys, the breed prompt for an analysis type that names no
property (a name inherited from `Object.prototype`, such as `constructor`, is not
modelled). -/
def systemPromptFor (analysisType : String) : String :=
  if analysisType = "breed" then promptBreed
  else if analysisType = "health" then promptHealth
  else if analysisType = "condition" then promptCondition
  else promptBreed

/-- The request `analyzeImageWithGPT4o` sends for an image reference and an analysis
type. -/
def analysisRequest (imageUrl : JSVal) (analysisType : String) : AnalysisRequest :=
  { model := "gpt-4o", systemContent := systemPromptFor analysisType,
    userText := "Please analyze this image with focus on: " ++ analysisType,
    imageUrl := imageUrl, maxTokens := 1000 }

/-- The resolution of the `image` argument at the start of `analyzeImageWithGPT4o`:
the image reference and the browser after it, or `none` when the function throws
`No valid image provided`. The tests are tried in order: a string, a truthy `url`
field, an instance of `File`. -/
def resolveImage (image : ImageArg) (b : Browser) : Option (JSVal × Browser) :=
  match image with
  | .value (.str s) => some (.str s, b)
  | .value v =>
    if truthy (optField v "url") then some (optField v "url", b) else none
  | .file f => some (.str (createObjectURL f b).1, (createObjectURL f b).2)

/-- The value of `typeof image === "string" ? image : null`. -/
def returnedImageUrl : ImageArg → JSVal
  | .value (.str s) => .str s
  | _ => .null

/-- The cleanup `if (image instanceof File) URL.revokeObjectURL(imageUrl)`. -/
def revokeIfFile (image : ImageArg) (imageUrl : JSVal) (b : Browser) : Browser :=
  match image, imageUrl with
  | .file _, .str url => revokeObjectURL url b
  | _, _ => b

/-- The service function `analyzeImageWithGPT4o(image, analysisType)`. `vendor` is the
outcome of the awaited remote call; an omitted analysis type (`none`) takes the
default `breed`. Returns the resolved value or the thrown error,
the request sent to the vendor (`none` when no call was made), and the browser
after the call. -/
def analyzeImageWithGPT4o (vendor : VendorOutcome) (image : ImageArg)
    (analysisTypeArg : Option String) (b : Browser) :
    Except JSError JSVal × Option AnalysisRequest × Browser :=
  let analysisType := analysisTypeArg.getD "breed"
  match resolveImage image b with
  | none => (.error { status := none, message := some "No valid image provided" }, none, b)
  | some (imageUrl, b1) =>
    match vendor with
    | .resolved response =>
      (.ok (.obj [("analysis", messageContent response), ("analysisType", .str analysisType),
          ("imageUrl", returnedImageUrl image)]),
        some (analysisRequest imageUrl analysisType), revokeIfFile image imageUrl b1)
    | .rejected error =>
      (.error error, some (analysisRequest imageUrl analysisType),
        revokeIfFile image imageUrl b1)

/-! ## The page: `BreedIdentificationDemo` -/

/-- The `useEffect` run on mount: load the recent predictions from localStorage.
A missing or empty entry is skipped; a `JSON.parse` failure is caught and logged. -/
def loadRecentPredictions (env : Env) (s : State) : State :=
  match s.browser.storage with
  | none => s
  | some saved =>
    if saved = "" then s
    else
      match env.jsonParse (.str saved) with
      | .ok v => { s with recentPredictions := v }
      | .error _ => s

/-- The elements spread by `...recentPredictions?.slice(0, 9)`: the first nine
entries of an array, the first nine characters of a string; `undefined` and `null`
short-circuit to `undefined`, which is not iterable, and the other values have no
callable `slice`, so a `TypeError` is thrown. -/
def sliceSpread : JSVal → Except JSError (List JSVal)
  | .arr xs => .ok (xs.take 9)
  | .str s => .ok ((charValues s).take 9)
  | .undefined => .error { status := none, message := some "undefined is not iterable" }
  | .null => .error { status := none, message := some "undefined is not iterable" }
  | _ => .error { status := none, message := some "recentPredictions?.slice is not a function" }

/-- The handler `saveToHistory(prediction)`: the new list is built first (this
may throw), then stored in the state and written to localStorage (the store is
taken to accept every write). -/
def saveToHistory (env : Env) (prediction : JSVal) (s : State) : Except JSError State :=
  match sliceSpread s.recentPredictions with
  | .error e => .error e
  | .ok rest =>
    let updated := JSVal.arr (prediction :: rest)
    .ok { s with
      recentPredictions := updated,
      browser := { s.browser with storage := some (env.jsonStringify updated) } }

/-- Message of the upload error for a file that is too large. -/
def msgTooLarge : String :=
  "File size too large. Please choose an image smaller than 10MB."

/-- Message of the upload error for a file that is not an image. -/
def msgNotImage : String := "Please select a valid image file (JPG, PNG, WEBP)."

/-- Message of the configuration error. -/
def msgNotConfigured : String :=
  "OpenAI API key is not configured. Please set your VITE_OPENAI_API_KEY in the environment variables to use AI-powered breed identification."

/-- Default message of the processing error. -/
def msgProcessDefault : String := "Failed to process image. Please try again."

/-- The test `!KEY || KEY === "your-openai-api-key-here"` on the configured key. -/
def keyNotConfigured : Option String → Bool
  | none => true
  | some k => k = "" || k = "your-openai-api-key-here"

/-- The test `file?.type?.startsWith("image/")` as a boolean. -/
def isImageType : Option String → Bool
  | none => false
  | some t => startsWith t "image/"

/-- The value of `err?.message || "Failed to process image. Please try again."`. -/
def processingMessage (err : JSError) : String :=
  match err.message with
  | some m => if m = "" then msgProcessDefault else m
  | none => msgProcessDefault

/-- The handler `handleImageUpload(file)` run to completion (`none` is a null
file). -/
def handleImageUpload (env : Env) (vendor : VendorOutcome) (now1 now2 : Nat)
    (file : Option File) (s : State) : State :=
  match file with
  | none => s
  | some f =>
    if f.size > 10 * 1024 * 1024 then
      { s with error := some { type := "upload", message := msgTooLarge } }
    else if !isImageType f.type then
      { s with error := some { type := "upload", message := msgNotImage } }
    else if keyNotConfigured env.apiKey then
      { s with error := some { type := "configuration", message := msgNotConfigured } }
    else
      let s1 := { s with selectedImage := some f, error := none, result := .null,
                         isProcessing := true }
      let called := identifyBreedWithOpenAI env vendor now1 now2 f s1.browser
      let s2 := { s1 with browser := called.2 }
      let s3 :=
        match called.1 with
        | .ok prediction =>
          let s4 := { s2 with result := prediction }
          let created := createObjectURL f s4.browser
          let s5 := { s4 with browser := created.2 }
          match saveToHistory env
              (.obj (setField (ownProps prediction) "imageUrl" (.str created.1))) s5 with
          | .ok s6 => s6
          | .error err =>
            { s5 with error := some { type := "processing", message := processingMessage err } }
        | .error err =>
          { s2 with error := some { type := "processing", message := processingMessage err } }
      { s3 with isProcessing := false }

/-- The handler `handleRetry()`. -/
def handleRetry (env : Env) (vendor : VendorOutcome) (now1 now2 : Nat) (s : State) : State :=
  match s.selectedImage with
  | some f => handleImageUpload env vendor now1 now2 (some f) s
  | none => { s with error := none, result := .null }

/-- The handler `handleClearError()`. -/
def handleClearError (s : State) : State := { s with error := none }

/-- The handler `handleSelectPrediction(prediction)`. -/
def handleSelectPrediction (prediction : JSVal) (s : State) : State :=
  { s with result := prediction, selectedImage := none, error := none }

/-- The handler `handleClearHistory()`. -/
def handleClearHistory (s : State) : State :=
  { s with recentPredictions := .arr [], browser := { s.browser with storage := none } }

/-- The handler `handleNewIdentification()`. -/
def handleNewIdentification (s : State) : State :=
  { s with selectedImage := none, result := .null, error := none, isProcessing := false }

/-! ## Sequences of history operations -/

/-- The operations on the history: the load on mount, `saveToHistory`,
`handleSelectPrediction` and `handleClearHistory`. -/
inductive HistoryOp where
  | load : HistoryOp
  | record (prediction : JSVal) : HistoryOp
  | select (prediction : JSVal) : HistoryOp
  | clear : HistoryOp

/-- One history operation. A `saveToHistory` that throws leaves the state as it was
(the exception is raised before any state is set). -/
def HistoryOp.run (env : Env) : HistoryOp → State → State
  | .load, s => loadRecentPredictions env s
  | .record p, s =>
    match saveToHistory env p s with
    | .ok s1 => s1
    | .error _ => s
  | .select p, s => handleSelectPrediction p s
  | .clear, s => handleClearHistory s

/-- A sequence of history operations, left to right. -/
def runOps (env : Env) : List HistoryOp → State → State
  | [], s => s
  | op :: ops, s => runOps env ops (op.run env s)

/-- The history value is a sequence of at most ten entries. -/
def HistoryBounded : JSVal → Prop
  | .arr xs => xs.length ≤ 10
  | _ => False

/-- Whatever `JSON.parse` makes of the stored text is a sequence of at most ten
entries (an absent or empty entry, or a text that does not parse, is fine). -/
def StorageBounded (env : Env) (storage : Option String) : Prop :=
  ∀ t v, storage = some t → t ≠ "" → env.jsonParse (.str t) = .ok v → HistoryBounded v

/-! ## Values of the built-ins used in the examples -/

/-- The text `[1,2,3,4,5,6,7,8,9,10,11]`. -/
def elevenText : String := "[1,2,3,4,5,6,7,8,9,10,11]"

/-- The array `[1,2,3,4,5,6,7,8,9,10,11]`. -/
def elevenArray : JSVal :=
  .arr [.num 1, .num 2, .num 3, .num 4, .num 5, .num 6, .num 7, .num 8, .num 9, .num 10,
    .num 11]

/-- The text `{"breedName":"Gir","confidence":1.5}`: no `breedInfo`, no
`analysisNotes`, a confidence above 1. -/
def offSchemaText : String := "\x7b\"breedName\":\"Gir\",\"confidence\":1.5\x7d"

/-- The value of `JSON.parse` at `offSchemaText`. -/
def offSchemaPayload : JSVal := .obj [("breedName", .str "Gir"), ("confidence", .num 1.5)]

/-- The text of a payload that follows the schema: breed `Gir` with confidence 0.92. -/
def girText : String :=
  "\x7b\"breedName\":\"Gir\",\"confidence\":0.92,\"breedInfo\":\x7b\"origin\":\"Gujarat, India\"," ++
  "\"type\":\"Dairy Cattle\",\"characteristics\":\"...\",\"primaryUse\":\"Milk production\"\x7d," ++
  "\"analysisNotes\":\"...\"\x7d"

/-- The value of `JSON.parse` at `girText`. -/
def girPayload : JSVal :=
  .obj [("breedName", .str "Gir"), ("confidence", .num 0.92),
    ("breedInfo", .obj [("origin", .str "Gujarat, India"), ("type", .str "Dairy Cattle"),
      ("characteristics", .str "..."), ("primaryUse", .str "Milk production")]),
    ("analysisNotes", .str "...")]

/-- A vendor response `{ choices: [{ message: { role, content } }] }`. -/
def responseWith (content : String) : JSVal :=
  .obj [("choices", .arr [.obj [("message",
    .obj [("role", .str "assistant"), ("content", .str content)])]])]

/-- An excerpt of `JSON.parse`: its value at the texts used in the examples; every
other argument is answered with a `SyntaxError` without status. -/
def sampleParse : JSVal → Except JSError JSVal
  | .str t =>
    if t = "null" then .ok .null
    else if t = "[]" then .ok (.arr [])
    else if t = elevenText then .ok elevenArray
    else if t = offSchemaText then .ok offSchemaPayload
    else if t = girText then .ok girPayload
    else .error { status := none, message := some "Unexpected token" }
  | _ => .error { status := none, message := some "Unexpected token" }

/-- An excerpt of `JSON.stringify`: the empty array is written `[]`; any other value
is given a text that `sampleParse` does not read. -/
def sampleStringify : JSVal → String
  | .arr [] => "[]"
  | _ => "[...]"

/-- An environment with the excerpts above and a configured key. -/
def sampleEnv : Env :=
  { jsonParse := sampleParse, jsonStringify := sampleStringify, apiKey := some "sk-test" }

/-- The same environment without a configured key. -/
def sampleEnvNoKey : Env := { sampleEnv with apiKey := none }

/-- A 2 MB JPEG. -/
def cowJpeg : File := { name := "cow.jpg", size := 2 * 1000 * 1000, type := some "image/jpeg" }

/-- An image of 10 MiB plus one byte. -/
def hugePng : File := { name := "huge.png", size := 10 * 1024 * 1024 + 1, type := some "image/png" }

/-- An image of exactly 10 MiB. -/
def exactPng : File := { name := "exact.png", size := 10 * 1024 * 1024, type := some "image/png" }

/-- A vendor error with status 401. -/
def unauthorized : JSError := { status := some 401, message := some "Incorrect API key provided" }

/-- A vendor error with status 429. -/
def tooManyRequests : JSError := { status := some 429, message := some "Rate limit reached" }

/-- A history of ten entries `1, ..., 10`. -/
def tenEntries : List JSVal :=
  [.num 1, .num 2, .num 3, .num 4, .num 5, .num 6, .num 7, .num 8, .num 9, .num 10]

/-- The state of a freshly mounted page with nothing persisted. -/
def freshState : State := State.init (Browser.fresh none)

/-- The state of a page mounted with the text `null` persisted, after the load on
mount. -/
def nullLoadedState : State :=
  loadRecentPredictions sampleEnv (State.init (Browser.fresh (some "null")))

/-! ## The bounded history -/

theorem historyBounded_nil : HistoryBounded (.arr []) := by
  simp [HistoryBounded]

theorem load_preserves (env : Env) (s : State)
    (hh : HistoryBounded s.recentPredictions) (hs : StorageBounded env s.browser.storage) :
    HistoryBounded (loadRecentPredictions env s).recentPredictions ∧
      StorageBounded env (loadRecentPredictions env s).browser.storage := by
  unfold loadRecentPredictions
  cases hst : s.browser.storage with
  | none => exact ⟨hh, hs⟩
  | some saved =>
    by_cases he : saved = ""
    · simp only [he, if_true]
      exact ⟨hh, hs⟩
    · cases hp : env.jsonParse (.str saved) with
      | error e =>
        simp only [he, if_false, hp]
        exact ⟨hh, hs⟩
      | ok v =>
        simp only [he, if_false, hp]
        exact ⟨hs saved v hst he hp, hs⟩

theorem record_preserves (env : Env)
    (hrt : ∀ xs v, env.jsonParse (.str (env.jsonStringify (.arr xs))) = .ok v →
      ∃ ys, v = .arr ys ∧ ys.length = xs.length)
    (p : JSVal) (s : State) (hh : HistoryBounded s.recentPredictions) :
    HistoryBounded ((HistoryOp.record p).run env s).recentPredictions ∧
      StorageBounded env ((HistoryOp.record p).run env s).browser.storage := by
  cases hrp : s.recentPredictions with
  | arr xs =>
    have hlen : (p :: xs.take 9).length ≤ 10 := by
      simp only [List.length_cons, List.length_take]
      omega
    refine ⟨by simp [HistoryOp.run, saveToHistory, sliceSpread, hrp, HistoryBounded], ?_⟩
    intro t v ht _ hv
    simp only [HistoryOp.run, saveToHistory, sliceSpread, hrp, Option.some.injEq] at ht
    subst ht
    obtain ⟨ys, rfl, hys⟩ := hrt _ _ hv
    simp only [HistoryBounded, hys]
    exact hlen
  | undefined => simp [hrp, HistoryBounded] at hh
  | null => simp [hrp, HistoryBounded] at hh
  | bool b => simp [hrp, HistoryBounded] at hh
  | num q => simp [hrp, HistoryBounded] at hh
  | str t => simp [hrp, HistoryBounded] at hh
  | obj fs => simp [hrp, HistoryBounded] at hh

theorem runOps_preserves (env : Env)
    (hrt : ∀ xs v, env.jsonParse (.str (env.jsonStringify (.arr xs))) = .ok v →
      ∃ ys, v = .arr ys ∧ ys.length = xs.length)
    (ops : List HistoryOp) :
    ∀ s : State, HistoryBounded s.recentPredictions → StorageBounded env s.browser.storage →
      HistoryBounded (runOps env ops s).recentPredictions ∧
        StorageBounded env (runOps env ops s).browser.storage := by
  induction ops with
  | nil => intro s hh hs; exact ⟨hh, hs⟩
  | cons op ops ih =>
    intro s hh hs
    have hstep : HistoryBounded (op.run env s).recentPredictions ∧
        StorageBounded env (op.run env s).browser.storage := by
      cases op with
      | load => exact load_preserves env s hh hs
      | record p => exact record_preserves env hrt p s hh
      | select p => exact ⟨hh, hs⟩
      | clear =>
        refine ⟨historyBounded_nil, ?_⟩
        intro t v ht
        simp [HistoryOp.run, handleClearHistory] at ht
    exact ih _ hstep.1 hstep.2

theorem sample_roundtrip (xs : List JSVal) (v : JSVal)
    (hv : sampleEnv.jsonParse (.str (sampleEnv.jsonStringify (.arr xs))) = .ok v) :
    ∃ ys, v = .arr ys ∧ ys.length = xs.length := by
  cases xs with
  | nil =>
    refine ⟨[], ?_, rfl⟩
    simpa [sampleEnv, sampleStringify, sampleParse] using hv.symm
  | cons x xs =>
    simp [sampleEnv, sampleStringify, sampleParse, elevenText, offSchemaText, girText] at hv

theorem sample_storage_bounded : StorageBounded sampleEnv (some "[]") := by
  intro t v ht _ hv
  simp only [Option.some.injEq] at ht
  subst ht
  have : v = .arr [] := by simpa [sampleEnv, sampleParse] using hv.symm
  subst this
  exact historyBounded_nil

/-- C1 (amended): if the persisted `recentPredictions` content at application start
is absent, empty, unparseable or parses to a sequence of at most ten entries (and
`JSON.parse` reads the serialisation of an n-entry array back as an n-entry array),
then in every state reachable by any sequence of load, record, select and clear
operations the in-memory history is a sequence of at most ten entries. -/
theorem history_at_most_ten (env : Env)
    (hrt : ∀ xs v, env.jsonParse (.str (env.jsonStringify (.arr xs))) = .ok v →
      ∃ ys, v = .arr ys ∧ ys.length = xs.length)
    (saved : Option String) (hsaved : StorageBounded env saved) (ops : List HistoryOp) :
    HistoryBounded (runOps env ops (State.init (Browser.fresh saved))).recentPredictions :=
  (runOps_preserves env hrt ops (State.init (Browser.fresh saved)) historyBounded_nil hsaved).1

/-- Witness of C1 (amended): a page started on the persisted text `[]`, then load,
two records, a select, a clear and another load. -/
theorem history_at_most_ten_witness :
    HistoryBounded (runOps sampleEnv
      [.load, .record (.str "a"), .record (.str "b"), .select (.str "a"), .clear, .load]
      (State.init (Browser.fresh (some "[]")))).recentPredictions :=
  history_at_most_ten sampleEnv sample_roundtrip (some "[]") sample_storage_bounded _

/-- C1 as stated fails: with the eleven-entry array `[1,...,11]` persisted, the load
on mount installs all eleven entries. -/
theorem load_eleven_unbounded :
    (runOps sampleEnv [.load] (State.init (Browser.fresh (some elevenText)))).recentPredictions
        = elevenArray ∧
      ¬ HistoryBounded (runOps sampleEnv [.load]
        (State.init (Browser.fresh (some elevenText)))).recentPredictions := by
  have h : (runOps sampleEnv [.load]
      (State.init (Browser.fresh (some elevenText)))).recentPredictions = elevenArray := by
    simp [runOps, HistoryOp.run, loadRecentPredictions, State.init, Browser.fresh, sampleEnv,
      sampleParse, elevenText]
  refine ⟨h, ?_⟩
  rw [h]
  simp [elevenArray, HistoryBounded]

/-- C2: on a history `h`, `saveToHistory(p)` returns normally, sets the in-memory
history to `p` followed by the first nine entries of `h` in their order, and writes
the serialisation of exactly that sequence to the storage entry; when `h` has ten
entries the entries kept are all but the last, and a shorter `h` is kept whole. -/
theorem saveToHistory_prepends (env : Env) (h : List JSVal) (p : JSVal) (s : State)
    (hs : s.recentPredictions = .arr h) :
    ∃ s1, saveToHistory env p s = .ok s1 ∧
      s1.recentPredictions = .arr (p :: h.take 9) ∧
      s1.browser.storage = some (env.jsonStringify (.arr (p :: h.take 9))) ∧
      (h.length = 10 → ∃ oldest, h = h.take 9 ++ [oldest]) ∧
      (h.length ≤ 9 → h.take 9 = h) := by
  refine ⟨{ s with
      recentPredictions := .arr (p :: h.take 9),
      browser := { s.browser with
        storage := some (env.jsonStringify (.arr (p :: h.take 9))) } },
    by simp only [saveToHistory, hs, sliceSpread], rfl, rfl, ?_, ?_⟩
  · intro hlen
    have hd : (h.drop 9).length = 1 := by simp [hlen]
    obtain ⟨oldest, ho⟩ := List.length_eq_one.mp hd
    exact ⟨oldest, by rw [← ho, List.take_append_drop]⟩
  · intro hlen
    exact List.take_of_length_le hlen

/-- Witness of C2: a record `p` saved on a ten-entry history `1, ..., 10`; the new
history is `p, 1, ..., 9` and the entry dropped is the last one. -/
theorem saveToHistory_prepends_witness :
    ∃ s1, saveToHistory sampleEnv (.str "p")
        { freshState with recentPredictions := .arr tenEntries } = .ok s1 ∧
      s1.recentPredictions = .arr (.str "p" :: tenEntries.take 9) ∧
      s1.browser.storage = some (sampleEnv.jsonStringify (.arr (.str "p" :: tenEntries.take 9))) ∧
      ∃ oldest, tenEntries = tenEntries.take 9 ++ [oldest] := by
  obtain ⟨s1, h1, h2, h3, h4, _⟩ := saveToHistory_prepends sampleEnv tenEntries (.str "p")
    { freshState with recentPredictions := .arr tenEntries } rfl
  exact ⟨s1, h1, h2, h3, h4 rfl⟩

/-- A persisted text that `JSON.parse` rejects leaves the state as it was: the
exception is caught inside the effect. -/
theorem load_unparseable (env : Env) (s : State) (saved : String) (e : JSError)
    (hst : s.browser.storage = some saved) (hp : env.jsonParse (.str saved) = .error e) :
    loadRecentPredictions env s = s := by
  unfold loadRecentPredictions
  by_cases he : saved = ""
  · simp [hst, he]
  · simp [hst, he, hp]

/-- C3 fails on the code: with the text `null` persisted (parseable JSON that is not
a sequence), the load on mount sets the in-memory history to `null`, not to the
empty sequence. -/
theorem load_null_installs_null :
    (loadRecentPredictions sampleEnv (State.init (Browser.fresh (some "null")))).recentPredictions
      = .null := by
  simp [loadRecentPredictions, State.init, Browser.fresh, sampleEnv, sampleParse]

/-! ## Upload and credential validation -/

/-- C4: a file larger than 10 MiB, or whose declared content type is missing or does
not start with `image/`, makes `handleImageUpload` set an error of kind `upload` and
return with everything else (the browser and the log of service calls included)
unchanged; a file of exactly 10 MiB with an image content type never ends with an
error of kind `upload`, and with a configured key it is passed to the service. -/
theorem upload_validation (env : Env) (vendor : VendorOutcome) (now1 now2 : Nat)
    (f : File) (s : State) :
    ((f.size > 10 * 1024 * 1024 ∨ f.type = none ∨
        (∃ t, f.type = some t ∧ startsWith t "image/" = false)) →
      (∃ m, handleImageUpload env vendor now1 now2 (some f) s =
          { s with error := some { type := "upload", message := m } }) ∧
      (handleImageUpload env vendor now1 now2 (some f) s).browser.identifyCalls =
        s.browser.identifyCalls) ∧
    ((f.size = 10 * 1024 * 1024 ∧ ∃ t, f.type = some t ∧ startsWith t "image/" = true) →
      (∀ m, (handleImageUpload env vendor now1 now2 (some f) s).error ≠
          some { type := "upload", message := m }) ∧
      (keyNotConfigured env.apiKey = false →
        (handleImageUpload env vendor now1 now2 (some f) s).browser.identifyCalls =
          s.browser.identifyCalls ++ [f])) := by
  constructor
  · intro hbad
    by_cases hsize : f.size > 10 * 1024 * 1024
    · exact ⟨⟨msgTooLarge, by simp only [handleImageUpload, hsize, if_true]⟩,
        by simp only [handleImageUpload, hsize, if_true]⟩
    · have htype : isImageType f.type = false := by
        rcases hbad with h | h | ⟨t, ht, hst⟩
        · exact absurd h hsize
        · simp [h, isImageType]
        · simp [ht, isImageType, hst]
      exact ⟨⟨msgNotImage, by simp [handleImageUpload, hsize, htype]⟩,
        by simp [handleImageUpload, hsize, htype]⟩
  · rintro ⟨hsize, t, ht, hst⟩
    have hsz : ¬ f.size > 10 * 1024 * 1024 := by omega
    have htype : isImageType f.type = true := by simp [ht, isImageType, hst]
    by_cases hkey : keyNotConfigured env.apiKey = true
    · refine ⟨?_, fun h => by simp [hkey] at h⟩
      intro m
      simp [handleImageUpload, hsz, htype, hkey]
    · have hkey2 : keyNotConfigured env.apiKey = false := by simpa using hkey
      refine ⟨?_, ?_⟩
      · intro m
        simp only [handleImageUpload, hsz, htype, hkey2]
        cases vendor with
        | rejected e => simp [identifyBreedWithOpenAI]
        | resolved response =>
          cases hp : env.jsonParse (messageContent response) with
          | error e => simp [identifyBreedWithOpenAI, hp]
          | ok r =>
            cases hrp : sliceSpread s.recentPredictions with
            | error e2 => simp [identifyBreedWithOpenAI, hp, saveToHistory, hrp]
            | ok rest => simp [identifyBreedWithOpenAI, hp, saveToHistory, hrp]
      · intro _
        simp only [handleImageUpload, hsz, htype, hkey2]
        cases vendor with
        | rejected e => simp [identifyBreedWithOpenAI, createObjectURL]
        | resolved response =>
          cases hp : env.jsonParse (messageContent response) with
          | error e => simp [identifyBreedWithOpenAI, hp, createObjectURL]
          | ok r =>
            cases hrp : sliceSpread s.recentPredictions with
            | error e2 =>
              simp [identifyBreedWithOpenAI, hp, saveToHistory, hrp, createObjectURL,
                revokeObjectURL]
            | ok rest =>
              simp [identifyBreedWithOpenAI, hp, saveToHistory, hrp, createObjectURL,
                revokeObjectURL]

/-- Witness of C4: a PNG of 10 MiB plus one byte is rejected with kind `upload` and no
service call; a PNG of exactly 10 MiB is not, and is passed to the service. -/
theorem upload_validation_witness :
    ((∃ m, handleImageUpload sampleEnv (.rejected unauthorized) 0 0 (some hugePng) freshState =
          { freshState with error := some { type := "upload", message := m } }) ∧
      (handleImageUpload sampleEnv (.rejected unauthorized) 0 0 (some hugePng)
          freshState).browser.identifyCalls = freshState.browser.identifyCalls) ∧
    ((∀ m, (handleImageUpload sampleEnv (.rejected unauthorized) 0 0 (some exactPng)
          freshState).error ≠ some { type := "upload", message := m }) ∧
      (handleImageUpload sampleEnv (.rejected unauthorized) 0 0 (some exactPng)
          freshState).browser.identifyCalls = freshState.browser.identifyCalls ++ [exactPng]) :=
  ⟨(upload_validation sampleEnv (.rejected unauthorized) 0 0 hugePng freshState).1
      (Or.inl (by decide)),
    ((upload_validation sampleEnv (.rejected unauthorized) 0 0 exactPng freshState).2
      ⟨rfl, "image/png", rfl, by decide⟩).1,
    ((upload_validation sampleEnv (.rejected unauthorized) 0 0 exactPng freshState).2
      ⟨rfl, "image/png", rfl, by decide⟩).2 (by decide)⟩

/-- C5 (amended): when the key is absent, empty or the placeholder
`your-openai-api-key-here`, `handleImageUpload` never calls the service, whatever
the file; a file that passes the upload validation (at most 10 MiB, image content
type) ends with the error of kind `configuration` and nothing else changed, and a
file that fails the upload validation ends with an error of kind `upload`. -/
theorem unconfigured_key_blocks (env : Env)
    (hkey : env.apiKey = none ∨ env.apiKey = some "" ∨
      env.apiKey = some "your-openai-api-key-here")
    (vendor : VendorOutcome) (now1 now2 : Nat) (f : File) (s : State) :
    (handleImageUpload env vendor now1 now2 (some f) s).browser.identifyCalls =
        s.browser.identifyCalls ∧
      (f.size ≤ 10 * 1024 * 1024 → isImageType f.type = true →
        handleImageUpload env vendor now1 now2 (some f) s =
          { s with error := some { type := "configuration", message := msgNotConfigured } }) ∧
      (¬ (f.size ≤ 10 * 1024 * 1024 ∧ isImageType f.type = true) →
        ∃ m, (handleImageUpload env vendor now1 now2 (some f) s).error =
          some { type := "upload", message := m }) := by
  have hk : keyNotConfigured env.apiKey = true := by
    rcases hkey with h | h | h <;> simp [h, keyNotConfigured]
  by_cases hsize : f.size > 10 * 1024 * 1024
  · refine ⟨by simp only [handleImageUpload, hsize, if_true], fun h => by omega, fun _ =>
      ⟨msgTooLarge, by simp only [handleImageUpload, hsize, if_true]⟩⟩
  · by_cases htype : isImageType f.type = true
    · refine ⟨by simp [handleImageUpload, hsize, htype, hk], fun _ _ => by
        simp [handleImageUpload, hsize, htype, hk], fun h => ?_⟩
      exact absurd ⟨by omega, htype⟩ h
    · have htype2 : isImageType f.type = false := by simpa using htype
      refine ⟨by simp [handleImageUpload, hsize, htype2], fun _ h => by simp [htype2] at h,
        fun _ => ⟨msgNotImage, by simp [handleImageUpload, hsize, htype2]⟩⟩

/-- Witness of C5 (amended): no key configured and a 2 MB JPEG. -/
theorem unconfigured_key_blocks_witness :
    (handleImageUpload sampleEnvNoKey (.rejected unauthorized) 0 0 (some cowJpeg)
        freshState).browser.identifyCalls = freshState.browser.identifyCalls ∧
      handleImageUpload sampleEnvNoKey (.rejected unauthorized) 0 0 (some cowJpeg) freshState =
        { freshState with
          error := some { type := "configuration", message := msgNotConfigured } } :=
  ⟨(unconfigured_key_blocks sampleEnvNoKey (Or.inl rfl) (.rejected unauthorized) 0 0 cowJpeg
      freshState).1,
    (unconfigured_key_blocks sampleEnvNoKey (Or.inl rfl) (.rejected unauthorized) 0 0 cowJpeg
      freshState).2.1 (by decide) (by decide)⟩

/-- C5 as stated fails: with no key configured, an image of 10 MiB plus one byte ends
with the error of kind `upload`, not `configuration`. -/
theorem unconfigured_key_huge_file :
    (handleImageUpload sampleEnvNoKey (.rejected unauthorized) 0 0 (some hugePng)
        freshState).error = some { type := "upload", message := msgTooLarge } ∧
      (handleImageUpload sampleEnvNoKey (.rejected unauthorized) 0 0 (some hugePng)
        freshState).error ≠ some { type := "configuration", message := msgNotConfigured } := by
  have h : (handleImageUpload sampleEnvNoKey (.rejected unauthorized) 0 0 (some hugePng)
      freshState).error = some { type := "upload", message := msgTooLarge } := by
    simp [handleImageUpload, hugePng]
  refine ⟨h, ?_⟩
  rw [h]
  decide

/-! ## Errors of the service -/

/-- C6: when the vendor call rejects with error `e`, `identifyBreedWithOpenAI` throws
the invalid-key error for status 401, the rate-limit error for status 429, the
invalid-request error for status 400; for any other status the network error when
`e.message` contains `network`, and otherwise an error carrying `e.message` when it
is a non-empty text, or the default message when it is missing or empty. -/
theorem vendor_error_mapping (env : Env) (now1 now2 : Nat) (f : File) (b : Browser)
    (e : JSError) :
    ∃ thrown, (identifyBreedWithOpenAI env (.rejected e) now1 now2 f b).1 = .error thrown ∧
      (e.status = some 401 → thrown = { status := none, message := some msgInvalidKey }) ∧
      (e.status = some 429 → thrown = { status := none, message := some msgRateLimit }) ∧
      (e.status = some 400 → thrown = { status := none, message := some msgInvalidRequest }) ∧
      (e.status ≠ some 401 → e.status ≠ some 429 → e.status ≠ some 400 →
        (∀ m, e.message = some m → includes m "network" = true →
          thrown = { status := none, message := some msgNetwork }) ∧
        (∀ m, e.message = some m → includes m "network" = false → m ≠ "" →
          thrown = { status := none, message := some m }) ∧
        (e.message = none ∨ e.message = some "" →
          thrown = { status := none, message := some msgIdentifyDefault })) := by
  refine ⟨identifyCatch e, rfl, ?_, ?_, ?_, ?_⟩
  · intro h
    simp [identifyCatch, h]
  · intro h
    simp [identifyCatch, h]
  · intro h
    simp [identifyCatch, h]
  · intro h1 h2 h3
    refine ⟨?_, ?_, ?_⟩
    · intro m hm hn
      simp [identifyCatch, h1, h2, h3, hm, hn]
    · intro m hm hn hne
      simp [identifyCatch, h1, h2, h3, hm, hn, hne]
    · rintro (hm | hm)
      · simp [identifyCatch, h1, h2, h3, hm]
      · have : includes "" "network" = false := by decide
        simp [identifyCatch, h1, h2, h3, hm, this]

/-- Witness of C6: a vendor error with status 429 and one whose message contains
`network`. -/
theorem vendor_error_mapping_witness :
    (identifyBreedWithOpenAI sampleEnv (.rejected tooManyRequests) 0 0 cowJpeg
        (Browser.fresh none)).1 = .error { status := none, message := some msgRateLimit } ∧
      (identifyBreedWithOpenAI sampleEnv
        (.rejected { status := none, message := some "network down" }) 0 0 cowJpeg
        (Browser.fresh none)).1 = .error { status := none, message := some msgNetwork } := by
  constructor
  · obtain ⟨thrown, h, _, h429, _⟩ :=
      vendor_error_mapping sampleEnv 0 0 cowJpeg (Browser.fresh none) tooManyRequests
    rw [h, h429 rfl]
  · obtain ⟨thrown, h, _, _, _, hrest⟩ :=
      vendor_error_mapping sampleEnv 0 0 cowJpeg (Browser.fresh none)
        { status := none, message := some "network down" }
    rw [h, (hrest (by decide) (by decide) (by decide)).1 "network down" rfl (by decide)]

theorem identifyCatch_message (e : JSError) :
    ∃ m, (identifyCatch e).message = some m ∧ m ≠ "" := by
  unfold identifyCatch
  split_ifs
  · exact ⟨msgInvalidKey, rfl, by decide⟩
  · exact ⟨msgRateLimit, rfl, by decide⟩
  · exact ⟨msgInvalidRequest, rfl, by decide⟩
  · exact ⟨msgNetwork, rfl, by decide⟩
  · cases hm : e.message with
    | none => exact ⟨msgIdentifyDefault, rfl, by decide⟩
    | some m =>
      by_cases he : m = ""
      · exact ⟨msgIdentifyDefault, by simp [he], by decide⟩
      · exact ⟨m, by simp [he], he⟩

theorem identify_error_from_catch (env : Env) (vendor : VendorOutcome) (now1 now2 : Nat)
    (f : File) (b : Browser) (err : JSError)
    (hfail : (identifyBreedWithOpenAI env vendor now1 now2 f b).1 = .error err) :
    ∃ e, err = identifyCatch e := by
  cases vendor with
  | rejected e =>
    simp only [identifyBreedWithOpenAI, Except.error.injEq] at hfail
    exact ⟨e, hfail.symm⟩
  | resolved response =>
    cases hp : env.jsonParse (messageContent response) with
    | error e =>
      simp only [identifyBreedWithOpenAI, hp, Except.error.injEq] at hfail
      exact ⟨e, hfail.symm⟩
    | ok r => simp [identifyBreedWithOpenAI, hp] at hfail

/-- C7 (amended): for a file that passes the upload and credential validation, every
failure of the identification call is surfaced by `handleImageUpload` as one
message, the message of the error the service threw, together with the kind
`processing`, whatever the category of the failure; the category shows in the
message only, the four fixed messages (invalid key, rate limit, invalid request,
network) being pairwise different. -/
theorem failure_surfaced_as_processing (env : Env) (vendor : VendorOutcome)
    (now1 now2 : Nat) (f : File) (s : State) (err : JSError)
    (hsize : f.size ≤ 10 * 1024 * 1024) (htype : isImageType f.type = true)
    (hkey : keyNotConfigured env.apiKey = false)
    (hfail : (identifyBreedWithOpenAI env vendor now1 now2 f s.browser).1 = .error err) :
    (∃ m, err.message = some m ∧
      (handleImageUpload env vendor now1 now2 (some f) s).error =
        some { type := "processing", message := m }) ∧
    msgInvalidKey ≠ msgRateLimit ∧ msgInvalidKey ≠ msgInvalidRequest ∧
    msgInvalidKey ≠ msgNetwork ∧ msgRateLimit ≠ msgInvalidRequest ∧
    msgRateLimit ≠ msgNetwork ∧ msgInvalidRequest ≠ msgNetwork := by
  refine ⟨?_, by decide, by decide, by decide, by decide, by decide, by decide⟩
  obtain ⟨e, rfl⟩ := identify_error_from_catch env vendor now1 now2 f s.browser err hfail
  obtain ⟨m, hm, hne⟩ := identifyCatch_message e
  refine ⟨m, hm, ?_⟩
  have hsz : ¬ f.size > 10 * 1024 * 1024 := by omega
  simp [handleImageUpload, hsz, htype, hkey, hfail, processingMessage, hm, hne]

/-- Witness of C7 (amended): a 2 MB JPEG, a configured key and a vendor error 429. -/
theorem failure_surfaced_as_processing_witness :
    ∃ m, (identifyCatch tooManyRequests).message = some m ∧
      (handleImageUpload sampleEnv (.rejected tooManyRequests) 0 0 (some cowJpeg)
        freshState).error = some { type := "processing", message := m } :=
  (failure_surfaced_as_processing sampleEnv (.rejected tooManyRequests) 0 0 cowJpeg freshState
    (identifyCatch tooManyRequests) (by decide) (by decide) (by decide) rfl).1

/-- C7 as stated fails: an authentication failure (status 401) and a rate-limit
failure (status 429) are both surfaced with the kind `processing`. -/
theorem auth_and_rate_limit_same_kind :
    (handleImageUpload sampleEnv (.rejected unauthorized) 0 0 (some cowJpeg)
        freshState).error = some { type := "processing", message := msgInvalidKey } ∧
      (handleImageUpload sampleEnv (.rejected tooManyRequests) 0 0 (some cowJpeg)
        freshState).error = some { type := "processing", message := msgRateLimit } := by
  constructor <;>
    simp [handleImageUpload, cowJpeg, isImageType, startsWith, sampleEnv, keyNotConfigured,
      identifyBreedWithOpenAI, identifyCatch, unauthorized, tooManyRequests, processingMessage,
      msgInvalidKey, msgRateLimit]

/-! ## Responses of the vendor -/

/-- C8 (amended): when the message content of the vendor response is not parseable
JSON, `identifyBreedWithOpenAI` fails, throwing the error its catch block derives
from the parse error, and returns no record; when the content parses, the payload is
not checked against the schema: the call returns the payload extended with
`timestamp` and `id`, whatever fields it has. -/
theorem identify_parse_outcome (env : Env) (now1 now2 : Nat) (f : File) (b : Browser)
    (response : JSVal) :
    (∀ e, env.jsonParse (messageContent response) = .error e →
      (identifyBreedWithOpenAI env (.resolved response) now1 now2 f b).1 =
        .error (identifyCatch e)) ∧
    (∀ r, env.jsonParse (messageContent response) = .ok r →
      (identifyBreedWithOpenAI env (.resolved response) now1 now2 f b).1 =
        .ok (.obj (setField (setField (ownProps r) "timestamp" (.num (now1 : ℚ)))
          "id" (.str (toString now2))))) := by
  constructor
  · intro e he
    simp [identifyBreedWithOpenAI, he]
  · intro r hr
    simp [identifyBreedWithOpenAI, hr]

theorem sampleParse_notJson :
    sampleEnv.jsonParse (messageContent (responseWith "not json")) =
      .error { status := none, message := some "Unexpected token" } := by
  simp [sampleEnv, sampleParse, messageContent, responseWith, optField, optFirst, getField,
    elevenText, offSchemaText, girText]

theorem sampleParse_gir :
    sampleEnv.jsonParse (messageContent (responseWith girText)) = .ok girPayload := by
  simp [sampleEnv, sampleParse, messageContent, responseWith, optField, optFirst, getField,
    elevenText, offSchemaText, girText]

theorem sampleParse_offSchema :
    sampleEnv.jsonParse (messageContent (responseWith offSchemaText)) = .ok offSchemaPayload := by
  simp [sampleEnv, sampleParse, messageContent, responseWith, optField, optFirst, getField,
    elevenText, offSchemaText]

/-- Witness of C8 (amended): the content `not json` makes the call fail; the content
`girText` makes it return the parsed payload with `timestamp` and `id`. -/
theorem identify_parse_outcome_witness :
    (identifyBreedWithOpenAI sampleEnv (.resolved (responseWith "not json")) 7 8 cowJpeg
        (Browser.fresh none)).1 =
        .error (identifyCatch { status := none, message := some "Unexpected token" }) ∧
      (identifyBreedWithOpenAI sampleEnv (.resolved (responseWith girText)) 7 8 cowJpeg
        (Browser.fresh none)).1 =
        .ok (.obj (setField (setField (ownProps girPayload) "timestamp" (.num ((7 : Nat) : ℚ)))
          "id" (.str (toString 8)))) :=
  ⟨(identify_parse_outcome sampleEnv 7 8 cowJpeg (Browser.fresh none)
      (responseWith "not json")).1 _ sampleParse_notJson,
    (identify_parse_outcome sampleEnv 7 8 cowJpeg (Browser.fresh none)
      (responseWith girText)).2 _ sampleParse_gir⟩

/-- C8 as stated fails: a response whose content is `{"breedName":"Gir","confidence":1.5}`
(no `breedInfo`, no `analysisNotes`, confidence above 1) is returned as a prediction
record. -/
theorem off_schema_payload_returned :
    (identifyBreedWithOpenAI sampleEnv (.resolved (responseWith offSchemaText)) 7 8 cowJpeg
        (Browser.fresh none)).1 =
      .ok (.obj [("breedName", .str "Gir"), ("confidence", .num 1.5), ("timestamp", .num 7),
        ("id", .str "8")]) := by
  simp only [identifyBreedWithOpenAI, sampleParse_offSchema]
  simp [offSchemaPayload, ownProps, setField]
  rfl

/-! ## The temporary object URL -/

/-- C9 fails on the code: when the vendor call rejects (here with status 429), or
when the content does not parse, the object URL created at the start of
`identifyBreedWithOpenAI` is still registered when the function throws; it is
revoked on the success path only. -/
theorem object_url_left_on_failure :
    (identifyBreedWithOpenAI sampleEnv (.rejected tooManyRequests) 7 8 cowJpeg
        (Browser.fresh none)).2.objectUrls = [("blob:0", cowJpeg)] ∧
      (identifyBreedWithOpenAI sampleEnv (.resolved (responseWith "not json")) 7 8 cowJpeg
        (Browser.fresh none)).2.objectUrls = [("blob:0", cowJpeg)] ∧
      (identifyBreedWithOpenAI sampleEnv (.resolved (responseWith girText)) 7 8 cowJpeg
        (Browser.fresh none)).2.objectUrls = [] := by
  refine ⟨rfl, ?_, ?_⟩
  · simp only [identifyBreedWithOpenAI, sampleParse_notJson]
    rfl
  · simp only [identifyBreedWithOpenAI, sampleParse_gir]
    simp [revokeObjectURL, createObjectURL, Browser.fresh]

/-! ## A successful identification -/

theorem getField_setField_same (fs : List (String × JSVal)) (k : String) (v : JSVal) :
    getField (setField fs k v) k = v := by
  induction fs with
  | nil => simp [setField, getField]
  | cons kv rest ih =>
    obtain ⟨k1, v1⟩ := kv
    by_cases h : k1 = k
    · simp [setField, getField, h]
    · simp [setField, getField, h, ih]

theorem getField_setField_ne (fs : List (String × JSVal)) (k k2 : String) (v : JSVal)
    (hne : k2 ≠ k) : getField (setField fs k v) k2 = getField fs k2 := by
  induction fs with
  | nil => simp [setField, getField, hne.symm]
  | cons kv rest ih =>
    obtain ⟨k1, v1⟩ := kv
    by_cases h : k1 = k
    · subst h
      simp [setField, getField, hne.symm]
    · by_cases h2 : k1 = k2
      · subst h2
        simp [setField, getField, h]
      · simp [setField, getField, h, h2, ih]

/-- A successful upload on a history that is a sequence: for a file of at most
10 MiB with an image content type, a configured key, a vendor response whose content
parses to the payload `r`, and a history that is a sequence `h`, `handleImageUpload`
ends with `result` equal to `r` extended with
`timestamp` (the first clock reading) and `id` (the second reading as text), every
other field as in `r`; with `error` null and the processing flag false; and with the
history equal to that record extended with `imageUrl` (a live object URL of the
file) followed by the first nine entries of `h`. -/
theorem upload_success (env : Env) (response : JSVal) (now1 now2 : Nat) (f : File)
    (s : State) (r : JSVal) (h : List JSVal)
    (hsize : f.size ≤ 10 * 1024 * 1024)
    (htype : ∃ t, f.type = some t ∧ startsWith t "image/" = true)
    (hkey : ∃ k, env.apiKey = some k ∧ k ≠ "" ∧ k ≠ "your-openai-api-key-here")
    (hparse : env.jsonParse (messageContent response) = .ok r)
    (hhist : s.recentPredictions = .arr h) :
    ∃ record url,
      record = setField (setField (ownProps r) "timestamp" (.num (now1 : ℚ)))
        "id" (.str (toString now2)) ∧
      (handleImageUpload env (.resolved response) now1 now2 (some f) s).result = .obj record ∧
      getField record "timestamp" = .num (now1 : ℚ) ∧
      getField record "id" = .str (toString now2) ∧
      (∀ k, k ≠ "timestamp" → k ≠ "id" → getField record k = getField (ownProps r) k) ∧
      (handleImageUpload env (.resolved response) now1 now2 (some f) s).error = none ∧
      (handleImageUpload env (.resolved response) now1 now2 (some f) s).isProcessing = false ∧
      (handleImageUpload env (.resolved response) now1 now2 (some f) s).recentPredictions =
        .arr (.obj (setField record "imageUrl" (.str url)) :: h.take 9) ∧
      (url, f) ∈
        (handleImageUpload env (.resolved response) now1 now2 (some f) s).browser.objectUrls := by
  obtain ⟨t, ht, hst⟩ := htype
  obtain ⟨k, hk, hk1, hk2⟩ := hkey
  have hsz : ¬ f.size > 10 * 1024 * 1024 := by omega
  have hty : isImageType f.type = true := by simp [ht, isImageType, hst]
  have hky : keyNotConfigured env.apiKey = false := by simp [hk, keyNotConfigured, hk1, hk2]
  refine ⟨_, "blob:" ++ toString (s.browser.urlCounter + 1), rfl, ?_, ?_, ?_, ?_, ?_, ?_, ?_, ?_⟩
  · simp [handleImageUpload, hsz, hty, hky, identifyBreedWithOpenAI, hparse, saveToHistory,
      hhist, sliceSpread]
  · rw [getField_setField_ne _ _ _ _ (by decide), getField_setField_same]
  · rw [getField_setField_same]
  · intro k2 h1 h2
    rw [getField_setField_ne _ _ _ _ h2, getField_setField_ne _ _ _ _ h1]
  · simp [handleImageUpload, hsz, hty, hky, identifyBreedWithOpenAI, hparse, saveToHistory,
      hhist, sliceSpread]
  · simp [handleImageUpload, hsz, hty, hky, identifyBreedWithOpenAI, hparse, saveToHistory,
      hhist, sliceSpread]
  · simp [handleImageUpload, hsz, hty, hky, identifyBreedWithOpenAI, hparse, saveToHistory,
      hhist, sliceSpread, ownProps, createObjectURL, revokeObjectURL]
  · simp [handleImageUpload, hsz, hty, hky, identifyBreedWithOpenAI, hparse, saveToHistory,
      hhist, sliceSpread, ownProps, createObjectURL, revokeObjectURL]

/-- An instance of `upload_success`: a 2 MB JPEG, a configured key, the vendor response
with breed `Gir` and confidence 0.92, on a fresh page. -/
theorem upload_success_witness :
    ∃ record url,
      record = setField (setField (ownProps girPayload) "timestamp" (.num ((7 : Nat) : ℚ)))
        "id" (.str (toString 8)) ∧
      (handleImageUpload sampleEnv (.resolved (responseWith girText)) 7 8 (some cowJpeg)
        freshState).result = .obj record ∧
      getField record "timestamp" = .num ((7 : Nat) : ℚ) ∧
      getField record "id" = .str (toString 8) ∧
      (∀ k, k ≠ "timestamp" → k ≠ "id" →
        getField record k = getField (ownProps girPayload) k) ∧
      (handleImageUpload sampleEnv (.resolved (responseWith girText)) 7 8 (some cowJpeg)
        freshState).error = none ∧
      (handleImageUpload sampleEnv (.resolved (responseWith girText)) 7 8 (some cowJpeg)
        freshState).isProcessing = false ∧
      (handleImageUpload sampleEnv (.resolved (responseWith girText)) 7 8 (some cowJpeg)
        freshState).recentPredictions =
        .arr (.obj (setField record "imageUrl" (.str url)) :: ([] : List JSVal).take 9) ∧
      (url, cowJpeg) ∈
        (handleImageUpload sampleEnv (.resolved (responseWith girText)) 7 8 (some cowJpeg)
          freshState).browser.objectUrls :=
  upload_success sampleEnv (responseWith girText) 7 8 cowJpeg freshState girPayload []
    (by decide) ⟨"image/jpeg", rfl, by decide⟩ ⟨"sk-test", rfl, by decide, by decide⟩
    sampleParse_gir rfl

/-- C10 fails on the code: on a page mounted with the text `null` persisted, the load
has set the history to `null`. The upload of a 2 MB JPEG with a configured key and
the vendor response with breed `Gir` then sets `result` to the record, but
`saveToHistory` throws on the spread of the history, so the upload ends with an
error of kind `processing` instead of `null`, with the history still `null` (no
first entry) and the storage entry not rewritten. -/
theorem upload_on_null_history :
    nullLoadedState.recentPredictions = .null ∧
      (handleImageUpload sampleEnv (.resolved (responseWith girText)) 7 8 (some cowJpeg)
        nullLoadedState).result =
        .obj (setField (setField (ownProps girPayload) "timestamp" (.num ((7 : Nat) : ℚ)))
          "id" (.str (toString 8))) ∧
      (∃ m, (handleImageUpload sampleEnv (.resolved (responseWith girText)) 7 8 (some cowJpeg)
        nullLoadedState).error = some { type := "processing", message := m }) ∧
      (handleImageUpload sampleEnv (.resolved (responseWith girText)) 7 8 (some cowJpeg)
        nullLoadedState).recentPredictions = .null ∧
      (handleImageUpload sampleEnv (.resolved (responseWith girText)) 7 8 (some cowJpeg)
        nullLoadedState).browser.storage = some "null" := by
  have hload : nullLoadedState =
      { State.init (Browser.fresh (some "null")) with recentPredictions := .null } := by
    simp [nullLoadedState, loadRecentPredictions, State.init, Browser.fresh, sampleEnv,
      sampleParse]
  have hsz : ¬ cowJpeg.size > 10 * 1024 * 1024 := by decide
  have hty : isImageType cowJpeg.type = true := by decide
  have hky : keyNotConfigured sampleEnv.apiKey = false := by decide
  rw [hload]
  refine ⟨rfl, ?_, ?_, ?_, ?_⟩
  · simp [handleImageUpload, hsz, hty, hky, identifyBreedWithOpenAI, sampleParse_gir,
      saveToHistory, sliceSpread, State.init]
  · simp [handleImageUpload, hsz, hty, hky, identifyBreedWithOpenAI, sampleParse_gir,
      saveToHistory, sliceSpread, State.init]
  · simp [handleImageUpload, hsz, hty, hky, identifyBreedWithOpenAI, sampleParse_gir,
      saveToHistory, sliceSpread, State.init]
  · simp [handleImageUpload, hsz, hty, hky, identifyBreedWithOpenAI, sampleParse_gir,
      saveToHistory, sliceSpread, State.init, Browser.fresh, createObjectURL,
      revokeObjectURL]

/-! ## Select and clear -/

/-- C11: `handleSelectPrediction(p)` sets the displayed result to exactly `p` and
leaves the in-memory history and the persisted `recentPredictions` entry as they
were (for every `p`, in particular for every record of the history). -/
theorem select_shows_record (p : JSVal) (s : State) :
    (handleSelectPrediction p s).result = p ∧
      (handleSelectPrediction p s).recentPredictions = s.recentPredictions ∧
      (handleSelectPrediction p s).browser.storage = s.browser.storage :=
  ⟨rfl, rfl, rfl⟩

/-- C12: `handleClearHistory` sets the in-memory history to the empty sequence and
removes the storage entry, and the load of a page freshly started on the browser
left by the clear yields the empty sequence. -/
theorem clear_then_load_empty (env : Env) (s : State) :
    (handleClearHistory s).recentPredictions = .arr [] ∧
      (handleClearHistory s).browser.storage = none ∧
      (loadRecentPredictions env
        (State.init (handleClearHistory s).browser)).recentPredictions = .arr [] :=
  ⟨rfl, rfl, rfl⟩

/-! ## Retry -/

theorem upload_passed_selects (env : Env) (vendor : VendorOutcome) (now1 now2 : Nat)
    (f : File) (s : State) (hsz : ¬ f.size > 10 * 1024 * 1024)
    (hty : isImageType f.type = true) (hky : keyNotConfigured env.apiKey = false) :
    (handleImageUpload env vendor now1 now2 (some f) s).selectedImage = some f := by
  simp only [handleImageUpload, hsz, hty, hky]
  cases vendor with
  | rejected e => simp [identifyBreedWithOpenAI]
  | resolved response =>
    cases hp : env.jsonParse (messageContent response) with
    | error e => simp [identifyBreedWithOpenAI, hp]
    | ok r =>
      cases hrp : sliceSpread s.recentPredictions with
      | error e2 => simp [identifyBreedWithOpenAI, hp, saveToHistory, hrp]
      | ok rest => simp [identifyBreedWithOpenAI, hp, saveToHistory, hrp]

theorem upload_passed_error (env : Env) (vendor : VendorOutcome) (now1 now2 : Nat)
    (f : File) (s : State) (hsz : ¬ f.size > 10 * 1024 * 1024)
    (hty : isImageType f.type = true) (hky : keyNotConfigured env.apiKey = false) :
    (handleImageUpload env vendor now1 now2 (some f) s).error = none ∨
      ∃ m, (handleImageUpload env vendor now1 now2 (some f) s).error =
        some { type := "processing", message := m } := by
  simp only [handleImageUpload, hsz, hty, hky]
  cases vendor with
  | rejected e => simp [identifyBreedWithOpenAI]
  | resolved response =>
    cases hp : env.jsonParse (messageContent response) with
    | error e => simp [identifyBreedWithOpenAI, hp]
    | ok r =>
      cases hrp : sliceSpread s.recentPredictions with
      | error e2 => simp [identifyBreedWithOpenAI, hp, saveToHistory, hrp]
      | ok rest => simp [identifyBreedWithOpenAI, hp, saveToHistory, hrp]

theorem upload_rejected_state (env : Env) (vendor : VendorOutcome) (now1 now2 : Nat)
    (f : File) (s : State)
    (hbad : f.size > 10 * 1024 * 1024 ∨ isImageType f.type = false ∨
      keyNotConfigured env.apiKey = true) :
    ∃ e, (e.type = "upload" ∨ e.type = "configuration") ∧
      handleImageUpload env vendor now1 now2 (some f) s = { s with error := some e } := by
  by_cases hsz : f.size > 10 * 1024 * 1024
  · exact ⟨{ type := "upload", message := msgTooLarge }, Or.inl rfl,
      by simp only [handleImageUpload, hsz, if_true]⟩
  · by_cases hty : isImageType f.type = true
    · have hky : keyNotConfigured env.apiKey = true := by
        rcases hbad with h | h | h
        · exact absurd h hsz
        · simp [hty] at h
        · exact h
      exact ⟨{ type := "configuration", message := msgNotConfigured }, Or.inr rfl,
        by simp [handleImageUpload, hsz, hty, hky]⟩
    · have hty2 : isImageType f.type = false := by simpa using hty
      exact ⟨{ type := "upload", message := msgNotImage }, Or.inl rfl,
        by simp [handleImageUpload, hsz, hty2]⟩

/-- C13 (amended): if `handleImageUpload(f)` ends with an error of kind `processing`,
the file `f` is the selected image and a following `handleRetry` re-invokes
`handleImageUpload` with that same file; if it ends with an error of kind `upload`
or `configuration`, the selected image is the one from before the call, so the
retry re-invokes `handleImageUpload` with that earlier image, or only clears the
error and the result when there is none. -/
theorem retry_after_error (env : Env) (vendor vendor2 : VendorOutcome)
    (now1 now2 t1 t2 : Nat) (f : File) (s : State) :
    (∀ m, (handleImageUpload env vendor now1 now2 (some f) s).error =
        some { type := "processing", message := m } →
      handleRetry env vendor2 t1 t2 (handleImageUpload env vendor now1 now2 (some f) s) =
        handleImageUpload env vendor2 t1 t2 (some f)
          (handleImageUpload env vendor now1 now2 (some f) s)) ∧
    (∀ m, ((handleImageUpload env vendor now1 now2 (some f) s).error =
          some { type := "upload", message := m } ∨
        (handleImageUpload env vendor now1 now2 (some f) s).error =
          some { type := "configuration", message := m }) →
      (handleImageUpload env vendor now1 now2 (some f) s).selectedImage = s.selectedImage ∧
      handleRetry env vendor2 t1 t2 (handleImageUpload env vendor now1 now2 (some f) s) =
        match s.selectedImage with
        | some g => handleImageUpload env vendor2 t1 t2 (some g)
            (handleImageUpload env vendor now1 now2 (some f) s)
        | none => { handleImageUpload env vendor now1 now2 (some f) s with
            error := none, result := .null }) := by
  by_cases hpass : ¬ f.size > 10 * 1024 * 1024 ∧ isImageType f.type = true ∧
      keyNotConfigured env.apiKey = false
  · obtain ⟨hsz, hty, hky⟩ := hpass
    have hsel := upload_passed_selects env vendor now1 now2 f s hsz hty hky
    refine ⟨fun m _ => by simp only [handleRetry, hsel], ?_⟩
    intro m hm
    rcases upload_passed_error env vendor now1 now2 f s hsz hty hky with h | ⟨m2, h⟩
    · rw [h] at hm
      simp at hm
    · rw [h] at hm
      simp at hm
  · have hbad : f.size > 10 * 1024 * 1024 ∨ isImageType f.type = false ∨
        keyNotConfigured env.apiKey = true := by
      by_cases h1 : f.size > 10 * 1024 * 1024
      · exact Or.inl h1
      · by_cases h2 : isImageType f.type = true
        · by_cases h3 : keyNotConfigured env.apiKey = true
          · exact Or.inr (Or.inr h3)
          · exact absurd ⟨h1, h2, by simpa using h3⟩ hpass
        · exact Or.inr (Or.inl (by simpa using h2))
    obtain ⟨e, he, hst⟩ := upload_rejected_state env vendor now1 now2 f s hbad
    refine ⟨?_, ?_⟩
    · intro m hm
      rw [hst] at hm
      simp only [Option.some.injEq] at hm
      rw [hm] at he
      simp at he
    · intro m _
      rw [hst]
      refine ⟨rfl, ?_⟩
      simp only [handleRetry]

/-- Witness of C13 (amended): a 2 MB JPEG whose identification is rate-limited; the
retry re-invokes the upload with the same file. -/
theorem retry_after_error_witness :
    handleRetry sampleEnv (.resolved (responseWith girText)) 7 8
        (handleImageUpload sampleEnv (.rejected tooManyRequests) 0 0 (some cowJpeg) freshState) =
      handleImageUpload sampleEnv (.resolved (responseWith girText)) 7 8 (some cowJpeg)
        (handleImageUpload sampleEnv (.rejected tooManyRequests) 0 0 (some cowJpeg) freshState) :=
  (retry_after_error sampleEnv (.rejected tooManyRequests) (.resolved (responseWith girText))
    0 0 7 8 cowJpeg freshState).1 msgRateLimit (by
      simp [handleImageUpload, cowJpeg, isImageType, startsWith, sampleEnv, keyNotConfigured,
        identifyBreedWithOpenAI, identifyCatch, tooManyRequests, processingMessage,
        msgRateLimit])

/-- C13 as stated fails: on a fresh page the upload of an image of 10 MiB plus one byte
ends with the error of kind `upload` and no selected image; the following retry only
clears the error and makes no call, whereas `handleImageUpload` with that file sets
the `upload` error again. -/
theorem retry_after_upload_error_forgets_file :
    (handleImageUpload sampleEnv (.rejected unauthorized) 0 0 (some hugePng) freshState).error =
        some { type := "upload", message := msgTooLarge } ∧
      (handleImageUpload sampleEnv (.rejected unauthorized) 0 0 (some hugePng)
        freshState).selectedImage = none ∧
      (handleRetry sampleEnv (.rejected unauthorized) 0 0
        (handleImageUpload sampleEnv (.rejected unauthorized) 0 0 (some hugePng)
          freshState)).error = none ∧
      (handleImageUpload sampleEnv (.rejected unauthorized) 0 0 (some hugePng)
        (handleImageUpload sampleEnv (.rejected unauthorized) 0 0 (some hugePng)
          freshState)).error = some { type := "upload", message := msgTooLarge } := by
  have h : handleImageUpload sampleEnv (.rejected unauthorized) 0 0 (some hugePng) freshState =
      { freshState with error := some { type := "upload", message := msgTooLarge } } := by
    simp [handleImageUpload, hugePng]
  refine ⟨by rw [h], by rw [h]; rfl, by rw [h]; rfl, ?_⟩
  rw [h]
  simp [handleImageUpload, hugePng]

theorem upload_passed_calls (env : Env) (vendor : VendorOutcome) (now1 now2 : Nat)
    (f : File) (s : State) (hsz : ¬ f.size > 10 * 1024 * 1024)
    (hty : isImageType f.type = true) (hky : keyNotConfigured env.apiKey = false) :
    (handleImageUpload env vendor now1 now2 (some f) s).browser.identifyCalls =
        s.browser.identifyCalls ++ [f] ∧
      (handleImageUpload env vendor now1 now2 (some f) s).browser.requests =
        s.browser.requests ++ [breedRequest ("blob:" ++ toString s.browser.urlCounter)] := by
  simp only [handleImageUpload, hsz, hty, hky]
  cases vendor with
  | rejected e => simp [identifyBreedWithOpenAI, createObjectURL]
  | resolved response =>
    cases hp : env.jsonParse (messageContent response) with
    | error e => simp [identifyBreedWithOpenAI, hp, createObjectURL]
    | ok r =>
      cases hrp : sliceSpread s.recentPredictions with
      | error e2 =>
        simp [identifyBreedWithOpenAI, hp, saveToHistory, hrp, createObjectURL,
          revokeObjectURL]
      | ok rest =>
        simp [identifyBreedWithOpenAI, hp, saveToHistory, hrp, createObjectURL,
          revokeObjectURL]

/-- C14: when a file that passes the validations is uploaded and the vendor call is
rejected with status 429, `handleImageUpload` ends with the rate-limit error after
one call of `identifyBreedWithOpenAI` with `f`; a following `handleRetry` calls
`identifyBreedWithOpenAI` with the same file `f` once more, and the request it
sends has the same model, the same system and user message text and the same
response format as the first one. -/
theorem retry_after_rate_limit (env : Env) (e : JSError) (vendor2 : VendorOutcome)
    (now1 now2 t1 t2 : Nat) (f : File) (s : State)
    (hsize : f.size ≤ 10 * 1024 * 1024) (htype : isImageType f.type = true)
    (hkey : keyNotConfigured env.apiKey = false) (h429 : e.status = some 429) :
    ∃ s1 s2 req1 req2,
      s1 = handleImageUpload env (.rejected e) now1 now2 (some f) s ∧
      s2 = handleRetry env vendor2 t1 t2 s1 ∧
      s1.error = some { type := "processing", message := msgRateLimit } ∧
      s1.browser.identifyCalls = s.browser.identifyCalls ++ [f] ∧
      s1.browser.requests = s.browser.requests ++ [req1] ∧
      s2.browser.identifyCalls = s1.browser.identifyCalls ++ [f] ∧
      s2.browser.requests = s1.browser.requests ++ [req2] ∧
      req2.model = req1.model ∧ req2.systemContent = req1.systemContent ∧
      req2.userText = req1.userText ∧ req2.responseFormat = req1.responseFormat := by
  have hsz : ¬ f.size > 10 * 1024 * 1024 := by omega
  have hsel := upload_passed_selects env (.rejected e) now1 now2 f s hsz htype hkey
  have hc1 := upload_passed_calls env (.rejected e) now1 now2 f s hsz htype hkey
  have hc2 := upload_passed_calls env vendor2 t1 t2 f
    (handleImageUpload env (.rejected e) now1 now2 (some f) s) hsz htype hkey
  have hretry : handleRetry env vendor2 t1 t2
      (handleImageUpload env (.rejected e) now1 now2 (some f) s) =
      handleImageUpload env vendor2 t1 t2 (some f)
        (handleImageUpload env (.rejected e) now1 now2 (some f) s) := by
    simp only [handleRetry, hsel]
  refine ⟨_, _, breedRequest ("blob:" ++ toString s.browser.urlCounter),
    breedRequest ("blob:" ++ toString
      (handleImageUpload env (.rejected e) now1 now2 (some f) s).browser.urlCounter),
    rfl, rfl, ?_, hc1.1, hc1.2, ?_, ?_, rfl, rfl, rfl, rfl⟩
  · simp [handleImageUpload, hsz, htype, hkey, identifyBreedWithOpenAI, identifyCatch, h429,
      processingMessage, msgRateLimit]
  · rw [hretry]
    exact hc2.1
  · rw [hretry]
    exact hc2.2

/-- Witness of C14: a 2 MB JPEG, a rate-limited first call, a retry that succeeds. -/
theorem retry_after_rate_limit_witness :
    ∃ s1 s2 req1 req2,
      s1 = handleImageUpload sampleEnv (.rejected tooManyRequests) 0 0 (some cowJpeg)
        freshState ∧
      s2 = handleRetry sampleEnv (.resolved (responseWith girText)) 7 8 s1 ∧
      s1.error = some { type := "processing", message := msgRateLimit } ∧
      s1.browser.identifyCalls = freshState.browser.identifyCalls ++ [cowJpeg] ∧
      s1.browser.requests = freshState.browser.requests ++ [req1] ∧
      s2.browser.identifyCalls = s1.browser.identifyCalls ++ [cowJpeg] ∧
      s2.browser.requests = s1.browser.requests ++ [req2] ∧
      req2.model = req1.model ∧ req2.systemContent = req1.systemContent ∧
      req2.userText = req1.userText ∧ req2.responseFormat = req1.responseFormat :=
  retry_after_rate_limit sampleEnv tooManyRequests (.resolved (responseWith girText)) 0 0 7 8
    cowJpeg freshState (by decide) (by decide) (by decide) rfl

/-! ## A failed identification -/

/-- C16: for a file that passes the upload and credential validation, if
`identifyBreedWithOpenAI` fails with the error `err`, `handleImageUpload` ends with
the in-memory history and the persisted entry unchanged, `result` null, the
processing flag false, and `error` of kind `processing` carrying the message of
`err`, or the default message when `err` has no message or an empty one. -/
theorem upload_failure_frame (env : Env) (vendor : VendorOutcome) (now1 now2 : Nat)
    (f : File) (s : State) (err : JSError)
    (hsize : f.size ≤ 10 * 1024 * 1024) (htype : isImageType f.type = true)
    (hkey : keyNotConfigured env.apiKey = false)
    (hfail : (identifyBreedWithOpenAI env vendor now1 now2 f s.browser).1 = .error err) :
    (handleImageUpload env vendor now1 now2 (some f) s).recentPredictions =
        s.recentPredictions ∧
      (handleImageUpload env vendor now1 now2 (some f) s).browser.storage =
        s.browser.storage ∧
      (handleImageUpload env vendor now1 now2 (some f) s).result = .null ∧
      (handleImageUpload env vendor now1 now2 (some f) s).isProcessing = false ∧
      (∃ m, (handleImageUpload env vendor now1 now2 (some f) s).error =
          some { type := "processing", message := m } ∧
        (∀ t, err.message = some t → t ≠ "" → m = t) ∧
        (err.message = none ∨ err.message = some "" → m = msgProcessDefault)) := by
  have hsz : ¬ f.size > 10 * 1024 * 1024 := by omega
  have hb : (identifyBreedWithOpenAI env vendor now1 now2 f s.browser).2.storage =
      s.browser.storage := by
    cases vendor with
    | rejected e => simp [identifyBreedWithOpenAI, createObjectURL]
    | resolved response =>
      cases hp : env.jsonParse (messageContent response) with
      | error e => simp [identifyBreedWithOpenAI, hp, createObjectURL]
      | ok r => simp [identifyBreedWithOpenAI, hp, createObjectURL, revokeObjectURL]
  refine ⟨?_, ?_, ?_, ?_, processingMessage err, ?_, ?_, ?_⟩
  · simp [handleImageUpload, hsz, htype, hkey, hfail]
  · simpa [handleImageUpload, hsz, htype, hkey, hfail] using hb
  · simp [handleImageUpload, hsz, htype, hkey, hfail]
  · simp [handleImageUpload, hsz, htype, hkey, hfail]
  · simp [handleImageUpload, hsz, htype, hkey, hfail]
  · intro t ht hne
    simp [processingMessage, ht, hne]
  · rintro (h | h)
    · simp [processingMessage, h]
    · simp [processingMessage, h]

/-- Witness of C16: a 2 MB JPEG whose identification is rate-limited, on a fresh
page. -/
theorem upload_failure_frame_witness :
    (handleImageUpload sampleEnv (.rejected tooManyRequests) 0 0 (some cowJpeg)
        freshState).recentPredictions = freshState.recentPredictions ∧
      (handleImageUpload sampleEnv (.rejected tooManyRequests) 0 0 (some cowJpeg)
        freshState).browser.storage = freshState.browser.storage ∧
      (handleImageUpload sampleEnv (.rejected tooManyRequests) 0 0 (some cowJpeg)
        freshState).result = .null ∧
      (handleImageUpload sampleEnv (.rejected tooManyRequests) 0 0 (some cowJpeg)
        freshState).isProcessing = false ∧
      (∃ m, (handleImageUpload sampleEnv (.rejected tooManyRequests) 0 0 (some cowJpeg)
          freshState).error = some { type := "processing", message := m } ∧
        (∀ t, (identifyCatch tooManyRequests).message = some t → t ≠ "" → m = t) ∧
        ((identifyCatch tooManyRequests).message = none ∨
          (identifyCatch tooManyRequests).message = some "" → m = msgProcessDefault)) :=
  upload_failure_frame sampleEnv (.rejected tooManyRequests) 0 0 cowJpeg freshState
    (identifyCatch tooManyRequests) (by decide) (by decide) (by decide) rfl

/-! ## The image argument of `analyzeImageWithGPT4o` -/

theorem resolveImage_value (v : JSVal) (b : Browser) (hv : ∀ t, v ≠ .str t) :
    resolveImage (.value v) b =
      if truthy (optField v "url") then some (optField v "url", b) else none := by
  cases v with
  | str t => exact absurd rfl (hv t)
  | undefined => rfl
  | null => rfl
  | bool x => rfl
  | num q => rfl
  | arr xs => rfl
  | obj fs => rfl

theorem returnedImageUrl_value (v : JSVal) (hv : ∀ t, v ≠ .str t) :
    returnedImageUrl (.value v) = .null := by
  cases v with
  | str t => exact absurd rfl (hv t)
  | undefined => rfl
  | null => rfl
  | bool x => rfl
  | num q => rfl
  | arr xs => rfl
  | obj fs => rfl

/-- C15: `analyzeImageWithGPT4o` throws `No valid image provided` without sending a
request exactly when `image` is not a string, has no truthy `url` field and is not a
`File`. Otherwise a request is sent whose image reference is the string itself,
the `url` field, or the object URL created for the file, respectively; and when
the vendor call resolves, the returned `imageUrl` is the input string for a string
and `null` in the other two cases. -/
theorem analyze_image_resolution (vendor : VendorOutcome) (image : ImageArg)
    (analysisType : Option String) (b : Browser) :
    (((analyzeImageWithGPT4o vendor image analysisType b).1 =
          .error { status := none, message := some "No valid image provided" } ∧
        (analyzeImageWithGPT4o vendor image analysisType b).2.1 = none) ↔
      ∃ v, image = .value v ∧ (∀ t, v ≠ .str t) ∧ truthy (optField v "url") = false) ∧
    (∀ t, image = .value (.str t) →
      (∃ req, (analyzeImageWithGPT4o vendor image analysisType b).2.1 = some req ∧
        req.imageUrl = .str t) ∧
      (∀ response, vendor = .resolved response →
        ∃ fields, (analyzeImageWithGPT4o vendor image analysisType b).1 = .ok (.obj fields) ∧
          getField fields "imageUrl" = .str t)) ∧
    (∀ v, image = .value v → (∀ t, v ≠ .str t) → truthy (optField v "url") = true →
      (∃ req, (analyzeImageWithGPT4o vendor image analysisType b).2.1 = some req ∧
        req.imageUrl = optField v "url") ∧
      (∀ response, vendor = .resolved response →
        ∃ fields, (analyzeImageWithGPT4o vendor image analysisType b).1 = .ok (.obj fields) ∧
          getField fields "imageUrl" = .null)) ∧
    (∀ f, image = .file f →
      (∃ req, (analyzeImageWithGPT4o vendor image analysisType b).2.1 = some req ∧
        req.imageUrl = .str (createObjectURL f b).1) ∧
      (∀ response, vendor = .resolved response →
        ∃ fields, (analyzeImageWithGPT4o vendor image analysisType b).1 = .ok (.obj fields) ∧
          getField fields "imageUrl" = .null)) := by
  refine ⟨?_, ?_, ?_, ?_⟩
  · cases image with
    | file f =>
      constructor
      · rintro ⟨_, h⟩
        cases vendor <;> simp [analyzeImageWithGPT4o, resolveImage] at h
      · rintro ⟨v, hv, _⟩
        cases hv
    | value v =>
      by_cases hs : ∃ t, v = .str t
      · obtain ⟨t, rfl⟩ := hs
        constructor
        · rintro ⟨_, h⟩
          cases vendor <;> simp [analyzeImageWithGPT4o, resolveImage] at h
        · rintro ⟨v, hv, hns, _⟩
          cases hv
          exact absurd rfl (hns t)
      · have hns : ∀ t, v ≠ .str t := fun t ht => hs ⟨t, ht⟩
        by_cases hu : truthy (optField v "url") = true
        · constructor
          · rintro ⟨_, h⟩
            cases vendor <;>
              simp [analyzeImageWithGPT4o, resolveImage_value v b hns, hu] at h
          · rintro ⟨w, hw, _, hf⟩
            cases hw
            simp [hu] at hf
        · have hu2 : truthy (optField v "url") = false := by simpa using hu
          constructor
          · intro _
            exact ⟨v, rfl, hns, hu2⟩
          · intro _
            simp [analyzeImageWithGPT4o, resolveImage_value v b hns, hu2]
  · rintro t rfl
    refine ⟨?_, ?_⟩
    · cases vendor <;> simp [analyzeImageWithGPT4o, resolveImage, analysisRequest]
    · rintro response rfl
      simp [analyzeImageWithGPT4o, resolveImage, returnedImageUrl, getField]
  · rintro v rfl hns hu
    refine ⟨?_, ?_⟩
    · cases vendor <;>
        simp [analyzeImageWithGPT4o, resolveImage_value v b hns, hu, analysisRequest]
    · rintro response rfl
      simp [analyzeImageWithGPT4o, resolveImage_value v b hns, hu,
        returnedImageUrl_value v hns, getField]
  · rintro f rfl
    refine ⟨?_, ?_⟩
    · cases vendor <;> simp [analyzeImageWithGPT4o, resolveImage, analysisRequest]
    · rintro response rfl
      simp [analyzeImageWithGPT4o, resolveImage, returnedImageUrl, getField]

/-- Witness of C15: `null` is refused without a request; a string is sent as it is; a
file is sent under the object URL created for it. -/
theorem analyze_image_resolution_witness :
    ((analyzeImageWithGPT4o (.resolved (responseWith "fine")) (.value .null) none
          (Browser.fresh none)).1 =
        .error { status := none, message := some "No valid image provided" } ∧
      (analyzeImageWithGPT4o (.resolved (responseWith "fine")) (.value .null) none
          (Browser.fresh none)).2.1 = none) ∧
    (∃ req, (analyzeImageWithGPT4o (.resolved (responseWith "fine"))
          (.value (.str "https://farm.example/cow.jpg")) (some "health")
          (Browser.fresh none)).2.1 = some req ∧
        req.imageUrl = .str "https://farm.example/cow.jpg") ∧
    (∃ req, (analyzeImageWithGPT4o (.resolved (responseWith "fine")) (.file cowJpeg) none
          (Browser.fresh none)).2.1 = some req ∧
        req.imageUrl = .str (createObjectURL cowJpeg (Browser.fresh none)).1) :=
  ⟨(analyze_image_resolution (.resolved (responseWith "fine")) (.value .null) none
      (Browser.fresh none)).1.mpr ⟨.null, rfl, fun _ h => JSVal.noConfusion h, rfl⟩,
    ((analyze_image_resolution (.resolved (responseWith "fine"))
      (.value (.str "https://farm.example/cow.jpg")) (some "health")
      (Browser.fresh none)).2.1 _ rfl).1,
    ((analyze_image_resolution (.resolved (responseWith "fine")) (.file cowJpeg) none
      (Browser.fresh none)).2.2.2 _ rfl).1⟩

end PashuAi
